import Mathlib

/-!
Verification of the transcription/translation mechanism module
(`mechanisms_txtl.py`) of the BioCRNPyler repository.

The module builds chemical-reaction-network fragments: each mechanism maps
molecular participants and a parameter source to a list of species and a
list of mass-action reactions.  The definitions below are a shallow
embedding of that module.  The external data types consumed by the module
(Species, Complex, Reaction, the parameter-resolving component) are not
part of the provided source tree, so they are modelled from the spec, as
marked in their doc comments.  Python `None` arguments are modelled with
`Option`, Python exceptions with `Except String`.
-/

namespace BioCRN

/-- Modelled from the spec: a Species is an identity given by a name and a
material type; a Complex is a Species whose identity is an ordered list of
component species plus an explicit name.  (The Species/Complex classes are
external to the provided source file.) -/
inductive Species where
  | base (name : String) (material_type : String)
  | complex (components : List Species) (name : String)

/-- The name field of a species. -/
def Species.name : Species → String
  | .base n _ => n
  | .complex _ n => n

/-- The component list of a species: the list of bound component species for
a complex, empty for a base species. -/
def Species.components : Species → List Species
  | .base _ _ => []
  | .complex cs _ => cs

/-- Modelled from the spec: a mass-action reaction is an ordered reactant
list, an ordered product list (repetition = stoichiometry) and one forward
rate constant.  (The Reaction class is external to the provided source
file; `Reaction.from_massaction` constructs exactly this record.)  The type
parameter lets reactant/product entries be `Option Species` where the
Python code can place `None` in a species list. -/
structure Rxn (α : Type) where
  inputs : List α
  outputs : List α
  k_forward : ℚ

/-- Modelled from the spec: the component / parameter-source contract.  A
component has a name and resolves a named parameter for a given part
identifier and mechanism to a number;  `get_parameter` models
`component.get_parameter(name, part_id = ..., mechanism = ...)`.  Failure
to resolve is out of scope here (the claims below never exercise it), so
resolution is modelled as total. -/
structure Component where
  name : String
  get_parameter : String → Option String → String → ℚ

/-- Python `int()` truncation (toward zero) of a rational parameter value,
as applied to the resolved `max_occ`. -/
def pyInt (q : ℚ) : ℤ := if 0 ≤ q then ⌊q⌋ else ⌈q⌉

/-- Default species used to totalize Python list indexing (`cp_open[n]`);
all indexing performed by the source stays in bounds, where this default
is never produced. -/
def dummySpecies : Species := .base ("") ("")

/-- Default reaction used to totalize list indexing in theorem statements. -/
def dummyRxn : Rxn Species := ⟨[], [], 0⟩

/-- Models the `isinstance(x, Species)` dichotomy on a Python argument: the
argument either is a Species or is some non-Species value. -/
inductive SpeciesArg where
  | species (s : Species)
  | notSpecies (descr : String)

/- ## OneStepGeneExpression -/

/-- `OneStepGeneExpression.__init__` stores only a name and mechanism type. -/
structure OneStepGeneExpression where
  name : String
  mechanism_type : String

/-- `OneStepGeneExpression.update_species`: `[dna]`, plus the protein when
one is supplied; the transcript keyword is accepted and ignored. -/
def OneStepGeneExpression.update_species (dna : Species)
    (protein : Option Species) (transcript : Option Species) : List Species :=
  [dna] ++ protein.toList

/-- `OneStepGeneExpression.update_reactions`: resolve `kexpress` from the
component unless a direct value was given (error when neither is
available), then emit `dna -> dna + protein` when a protein is supplied,
else no reaction. -/
def OneStepGeneExpression.update_reactions (self : OneStepGeneExpression)
    (dna : Species) (component : Option Component) (kexpress : Option ℚ)
    (protein transcript : Option Species) (part_id : Option String) :
    Except String (List (Rxn Species)) := do
  let kexpress ← match kexpress, component with
    | none, some c => pure (c.get_parameter ("kexpress") part_id self.name)
    | none, none => throw ("Must pass in component or a value for kexpress")
    | some v, _ => pure v
  match protein with
  | some p => pure [⟨[dna], [dna, p], kexpress⟩]
  | none => pure []

/- ## SimpleTranscription -/

structure SimpleTranscription where
  name : String
  mechanism_type : String

/-- `SimpleTranscription.update_species`: `[dna]` plus transcript and
protein when supplied. -/
def SimpleTranscription.update_species (dna : Species)
    (transcript protein : Option Species) : List Species :=
  [dna] ++ transcript.toList ++ protein.toList

/-- The `ktx` value used by `SimpleTranscription.update_reactions` when a
component is available: the direct argument when one was passed, otherwise
the value resolved from the component. -/
def SimpleTranscription.ktx_resolved (self : SimpleTranscription)
    (c : Component) (ktx : Option ℚ) (part_id : Option String) : ℚ :=
  match ktx with
  | some v => v
  | none => c.get_parameter ("ktx") part_id self.name

/-- `SimpleTranscription.update_reactions`: resolve `ktx` (error when
neither component nor direct value is given).  In the expression-only
configuration (`transcript` absent, `protein` present) resolve `ktl`
through the component unconditionally - dereferencing a `None` component
there raises - and emit `dna -> dna + protein` at `ktx * ktl`; otherwise
emit `dna -> dna + transcript` at `ktx` (the transcript slot may hold
Python `None`, modelled by the `Option` entry). -/
def SimpleTranscription.update_reactions (self : SimpleTranscription)
    (dna : Species) (component : Option Component) (ktx : Option ℚ)
    (part_id : Option String) (transcript protein : Option Species) :
    Except String (List (Rxn (Option Species))) := do
  let ktx ← match ktx, component with
    | none, some c => pure (c.get_parameter ("ktx") part_id self.name)
    | none, none => throw ("Must pass in component or a value for ktx")
    | some v, _ => pure v
  match transcript, protein with
  | none, some p =>
    match component with
    | some c =>
      let ktl := c.get_parameter ("ktl") part_id self.name
      pure [⟨[some dna], [some dna, some p], ktx * ktl⟩]
    | none => throw ("AttributeError: NoneType object has no attribute get_parameter")
  | t, _ => pure [⟨[some dna], [some dna, t], ktx⟩]

/- ## Michaelis-Menten base mechanisms (external, modelled from the spec) -/

/-- Modelled from the spec: the default enzyme-substrate complex used by the
external Michaelis-Menten base mechanisms when no pre-existing complex is
supplied; its identity is derived from the component species. -/
def mm_complex (Sub Enzyme : Species) : Species :=
  .complex [Sub, Enzyme] (Sub.name ++ (":") ++ Enzyme.name)

/-- Modelled from the spec: `MichaelisMentenCopy.update_reactions` (from the
external enzyme-mechanism module): bind `Enzyme + Sub -> complex` at `kb`,
unbind at `ku`, catalyze `complex -> Sub + Enzyme + Prod` at `kcat` with
the substrate regenerated; a supplied complex is reused. -/
def MichaelisMentenCopy_update_reactions (Enzyme Sub : Species)
    (Prod : Option Species) (complex : Option Species) (kb ku kcat : ℚ) :
    List (Rxn (Option Species)) :=
  let cx := complex.getD (mm_complex Sub Enzyme)
  [⟨[some Enzyme, some Sub], [some cx], kb⟩,
   ⟨[some cx], [some Enzyme, some Sub], ku⟩,
   ⟨[some cx], [some Sub, some Enzyme, Prod], kcat⟩]

/-- Modelled from the spec: `MichaelisMenten.update_reactions` (external):
bind at `kb`, unbind at `ku`, catalyze `complex -> Enzyme (+ Prod)` at
`kcat` with the substrate consumed (degradation passes no product). -/
def MichaelisMenten_update_reactions (Enzyme Sub : Species)
    (Prod : Option Species) (complex : Option Species) (kb ku kcat : ℚ) :
    List (Rxn (Option Species)) :=
  let cx := complex.getD (mm_complex Sub Enzyme)
  [⟨[some Enzyme, some Sub], [some cx], kb⟩,
   ⟨[some cx], [some Enzyme, some Sub], ku⟩,
   ⟨[some cx], [some Enzyme] ++ (match Prod with | some p => [some p] | none => []), kcat⟩]

/-- The transcription output selection shared by the mechanisms: the protein
in the expression-only configuration (`transcript` absent, `protein`
present), otherwise the transcript. -/
def tx_output_of (transcript protein : Option Species) : Option Species :=
  match transcript, protein with
  | none, some p => some p
  | t, _ => t

/- ## Transcription_MM -/

structure Transcription_MM where
  rnap : Species
  name : String

/-- `Transcription_MM.__init__`: accept the polymerase only when it is a
Species, else raise `ValueError` with no instance produced. -/
def Transcription_MM.mk_checked (rnap : SpeciesArg) (name : String) :
    Except String Transcription_MM :=
  match rnap with
  | .species s => .ok ⟨s, name⟩
  | .notSpecies _ => .error ("rnap parameter must be a Species.")

/-- `Transcription_MM.update_reactions`: substitute the component name for a
missing `part_id`, resolve `ktx`, `kb`, `ku` under that identifier, and
delegate to the Michaelis-Menten copy base with the expression-mode output. -/
def Transcription_MM.update_reactions (self : Transcription_MM) (dna : Species)
    (component : Option Component) (part_id : Option String)
    (complex : Option Species) (transcript protein : Option Species) :
    Except String (List (Rxn (Option Species))) :=
  let part_id := match part_id, component with
    | none, some c => some c.name
    | p, _ => p
  match component with
  | none => throw ("AttributeError: NoneType object has no attribute get_parameter")
  | some c =>
    let ktx := c.get_parameter ("ktx") part_id self.name
    let kb := c.get_parameter ("kb") part_id self.name
    let ku := c.get_parameter ("ku") part_id self.name
    pure (MichaelisMentenCopy_update_reactions self.rnap dna
      (tx_output_of transcript protein) complex kb ku ktx)

/- ## Translation_MM -/

structure Translation_MM where
  ribosome : Species
  name : String

/-- `Translation_MM.__init__`: accept the ribosome only when it is a
Species, else raise `ValueError`. -/
def Translation_MM.mk_checked (ribosome : SpeciesArg) (name : String) :
    Except String Translation_MM :=
  match ribosome with
  | .species s => .ok ⟨s, name⟩
  | .notSpecies _ => .error ("ribosome must be a Species!")

/-- `Translation_MM.update_reactions`: substitute the component name for a
missing `part_id`, resolve `ktl`, `kb`, `ku` under it, then delegate to the
Michaelis-Menten copy base, except in the expression-only configuration
where no reaction is emitted.  When both transcript and protein are absent
the source forwards a `None` substrate to the external base, whose species
validation fails; that path is modelled as an error. -/
def Translation_MM.update_reactions (self : Translation_MM)
    (transcript protein : Option Species) (component : Option Component)
    (part_id : Option String) (complex : Option Species) :
    Except String (List (Rxn (Option Species))) :=
  let part_id := match part_id, component with
    | none, some c => some c.name
    | p, _ => p
  match component with
  | none => throw ("AttributeError: NoneType object has no attribute get_parameter")
  | some c =>
    let ktl := c.get_parameter ("ktl") part_id self.name
    let kb := c.get_parameter ("kb") part_id self.name
    let ku := c.get_parameter ("ku") part_id self.name
    match transcript, protein with
    | none, some _ => pure []
    | some t, pr =>
      pure (MichaelisMentenCopy_update_reactions self.ribosome t pr complex kb ku ktl)
    | none, none => throw ("TypeError: None substrate passed to MichaelisMentenCopy")

/- ## Degredation_mRNA_MM -/

structure Degredation_mRNA_MM where
  nuclease : Species
  name : String

/-- `Degredation_mRNA_MM.__init__`: accept the nuclease only when it is a
Species, else raise `ValueError`. -/
def Degredation_mRNA_MM.mk_checked (nuclease : SpeciesArg) (name : String) :
    Except String Degredation_mRNA_MM :=
  match nuclease with
  | .species s => .ok ⟨s, name⟩
  | .notSpecies _ => .error ("nuclease must be a Species.")

/-- `Degredation_mRNA_MM.update_reactions`: substitute the component name
for a missing `part_id`, resolve `kdeg`, `kb`, `ku` under it, and delegate
to the Michaelis-Menten base with no product. -/
def Degredation_mRNA_MM.update_reactions (self : Degredation_mRNA_MM)
    (rna : Species) (component : Option Component) (part_id : Option String)
    (complex : Option Species) :
    Except String (List (Rxn (Option Species))) :=
  let part_id := match part_id, component with
    | none, some c => some c.name
    | p, _ => p
  match component with
  | none => throw ("AttributeError: NoneType object has no attribute get_parameter")
  | some c =>
    let kdeg := c.get_parameter ("kdeg") part_id self.name
    let kb := c.get_parameter ("kb") part_id self.name
    let ku := c.get_parameter ("ku") part_id self.name
    pure (MichaelisMenten_update_reactions self.nuclease rna none complex kb ku kdeg)

/- ## multi_tx / multi_tl: the multi-occupancy state machine

The two mechanisms run textually identical construction loops over the
occupancy range, differing only in which species play the carrier,
template and product roles and which parameter names are resolved.  The
loops are embedded once, over the role species, and each mechanism
instantiates them with its own resolved parameters, exactly as its source
body does. -/

/-- Name of the open complex at naming index `n`:
`pol.name + 'x' + dna.name + '_' + str(n)`. -/
def open_complex_name (carrier template : Species) (n : ℕ) : String :=
  carrier.name ++ ("x") ++ template.name ++ ("_") ++ toString n

/-- Name of the closed complex at naming index `n`:
`pol.name + 'x' + dna.name + '_closed' + '_' + str(n)`. -/
def closed_complex_name (carrier template : Species) (n : ℕ) : String :=
  carrier.name ++ ("x") ++ template.name ++ ("_closed") ++ ("_") ++ toString n

/-- The `cp_open` list: for loop index `n` in `range(1, max_occ + 1)`, the
complex of the template with `n` carriers, named with index `n`. -/
def cp_open_list (carrier template : Species) (max_occ : ℕ) : List Species :=
  (List.range' 1 max_occ).map (fun n =>
    .complex ([template] ++ List.replicate n carrier)
      (open_complex_name carrier template n))

/-- The `cp_closed` list: for loop index `n` in `range(1, max_occ + 1)`,
when `n > 1` the complex with `n - 1` carriers named with index `n - 1`,
and when `n = 1` the complex with one carrier named with index `0`. -/
def cp_closed_list (carrier template : Species) (max_occ : ℕ) : List Species :=
  (List.range' 1 max_occ).map (fun n =>
    if n > 1 then
      .complex ([template] ++ List.replicate (n - 1) carrier)
        (closed_complex_name carrier template (n - 1))
    else
      .complex ([template] ++ List.replicate 1 carrier)
        (closed_complex_name carrier template 0))

/-- Binding reactions: `carrier + cp_open[n] -> cp_closed[n + 1]` at `k1`
for `n` in `range(0, max_occ - 1)`. -/
def rxn_open_pf (carrier template : Species) (k1 : ℚ) (max_occ : ℕ) :
    List (Rxn Species) :=
  (List.range (max_occ - 1)).map (fun n =>
    ⟨[carrier, (cp_open_list carrier template max_occ).getD n dummySpecies],
     [(cp_closed_list carrier template max_occ).getD (n + 1) dummySpecies], k1⟩)

/-- Unbinding reactions: `cp_closed[n + 1] -> carrier + cp_open[n]` at `k2`
for `n` in `range(0, max_occ - 1)`. -/
def rxn_open_pr (carrier template : Species) (k2 : ℚ) (max_occ : ℕ) :
    List (Rxn Species) :=
  (List.range (max_occ - 1)).map (fun n =>
    ⟨[(cp_closed_list carrier template max_occ).getD (n + 1) dummySpecies],
     [carrier, (cp_open_list carrier template max_occ).getD n dummySpecies], k2⟩)

/-- Isomerization reactions: `cp_closed[n] -> cp_open[n]` at `k_iso` for `n`
in `range(0, max_occ)`. -/
def rxn_iso (carrier template : Species) (k_iso : ℚ) (max_occ : ℕ) :
    List (Rxn Species) :=
  (List.range max_occ).map (fun n =>
    ⟨[(cp_closed_list carrier template max_occ).getD n dummySpecies],
     [(cp_open_list carrier template max_occ).getD n dummySpecies], k_iso⟩)

/-- Open-release reactions: `cp_open[n] -> (n + 1) carrier + (n + 1) product
+ template` at the solo rate, for `n` in `range(0, max_occ)`. -/
def rxn_release_open (carrier template product : Species) (ktx_solo : ℚ)
    (max_occ : ℕ) : List (Rxn Species) :=
  (List.range max_occ).map (fun n =>
    ⟨[(cp_open_list carrier template max_occ).getD n dummySpecies],
     List.replicate (n + 1) carrier ++ List.replicate (n + 1) product ++ [template],
     ktx_solo⟩)

/-- Closed-release reactions: `cp_closed[n] -> n carrier + n product +
cp_closed[0]` at the solo rate, for `n` in `range(1, max_occ)`. -/
def rxn_release_closed (carrier template product : Species) (ktx_solo : ℚ)
    (max_occ : ℕ) : List (Rxn Species) :=
  (List.range' 1 (max_occ - 1)).map (fun n =>
    ⟨[(cp_closed_list carrier template max_occ).getD n dummySpecies],
     List.replicate n carrier ++ List.replicate n product ++
       [(cp_closed_list carrier template max_occ).getD 0 dummySpecies],
     ktx_solo⟩)

/-- Boundary binding reaction: `template + carrier -> cp_closed[0]` at `k1`. -/
def rxn_m1 (carrier template : Species) (k1 : ℚ) (max_occ : ℕ) : Rxn Species :=
  ⟨[template, carrier],
   [(cp_closed_list carrier template max_occ).getD 0 dummySpecies], k1⟩

/-- Boundary unbinding reaction: `cp_closed[0] -> template + carrier` at `k2`. -/
def rxn_m2 (carrier template : Species) (k2 : ℚ) (max_occ : ℕ) : Rxn Species :=
  ⟨[(cp_closed_list carrier template max_occ).getD 0 dummySpecies],
   [template, carrier], k2⟩

/-- `rxn_all`: the concatenation order of the source. -/
def occupancy_reactions (carrier template product : Species)
    (k1 k2 k_iso ktx_solo : ℚ) (max_occ : ℕ) : List (Rxn Species) :=
  rxn_open_pf carrier template k1 max_occ ++
  rxn_open_pr carrier template k2 max_occ ++
  rxn_iso carrier template k_iso max_occ ++
  rxn_release_open carrier template product ktx_solo max_occ ++
  rxn_release_closed carrier template product ktx_solo max_occ ++
  [rxn_m1 carrier template k1 max_occ, rxn_m2 carrier template k2 max_occ]

/- ## multi_tx -/

structure multi_tx where
  pol : Species
  name : String
  mechanism_type : String

/-- `multi_tx.__init__`: accept the polymerase only when it is a Species,
else raise `ValueError` with no instance produced. -/
def multi_tx.mk_checked (pol : SpeciesArg) (name mechanism_type : String) :
    Except String multi_tx :=
  match pol with
  | .species s => .ok ⟨s, name, mechanism_type⟩
  | .notSpecies _ => .error ("pol must be a Species")

/-- `int(component.get_parameter("max_occ", ...))` as used by both
`multi_tx.update_species` and `multi_tx.update_reactions`. -/
def multi_tx.max_occ_resolved (self : multi_tx) (component : Component)
    (part_id : Option String) : ℕ :=
  (pyInt (component.get_parameter ("max_occ") part_id self.name)).toNat

/-- `multi_tx.update_species`: the open complexes, then the closed
complexes, then polymerase, dna and transcript; the protein keyword is
accepted and ignored. -/
def multi_tx.update_species (self : multi_tx) (dna transcript : Species)
    (component : Component) (part_id : Option String)
    (protein : Option Species) : List Species :=
  let max_occ := multi_tx.max_occ_resolved self component part_id
  cp_open_list self.pol dna max_occ ++ cp_closed_list self.pol dna max_occ ++
    [self.pol, dna, transcript]

/-- `multi_tx.update_reactions`: resolve `k1`, `k2`, `k_iso`, `ktx_solo`
and `max_occ`, rebuild the complex lists, and emit the binding, unbinding,
isomerization, release and boundary reactions in source order. -/
def multi_tx.update_reactions (self : multi_tx) (dna transcript : Species)
    (component : Component) (part_id : Option String)
    (protein : Option Species) : List (Rxn Species) :=
  let k1 := component.get_parameter ("k1") part_id self.name
  let k2 := component.get_parameter ("k2") part_id self.name
  let k_iso := component.get_parameter ("k_iso") part_id self.name
  let ktx_solo := component.get_parameter ("ktx_solo") part_id self.name
  let max_occ := multi_tx.max_occ_resolved self component part_id
  occupancy_reactions self.pol dna transcript k1 k2 k_iso ktx_solo max_occ

/- ## multi_tl -/

structure multi_tl where
  ribosome : Species
  name : String
  mechanism_type : String

/-- `multi_tl.__init__`: accept the ribosome only when it is a Species,
else raise `ValueError` (the advisory warnings it prints are side effects
outside the constructed value). -/
def multi_tl.mk_checked (ribosome : SpeciesArg) (name mechanism_type : String) :
    Except String multi_tl :=
  match ribosome with
  | .species s => .ok ⟨s, name, mechanism_type⟩
  | .notSpecies _ => .error ("ribosome must be a Species.")

/-- `int(component.get_parameter("max_occ", ...))` as used by
`multi_tl.update_species` and `multi_tl.update_reactions`. -/
def multi_tl.max_occ_resolved (self : multi_tl) (component : Component)
    (part_id : Option String) : ℕ :=
  (pyInt (component.get_parameter ("max_occ") part_id self.name)).toNat

/-- `multi_tl.update_species`: open complexes, closed complexes, then
ribosome, transcript and protein. -/
def multi_tl.update_species (self : multi_tl) (transcript protein : Species)
    (component : Component) (part_id : Option String) : List Species :=
  let max_occ := multi_tl.max_occ_resolved self component part_id
  cp_open_list self.ribosome transcript max_occ ++
    cp_closed_list self.ribosome transcript max_occ ++
    [self.ribosome, transcript, protein]

/-- `multi_tl.update_reactions`: resolve `kbr`, `kur`, `k_iso_r`,
`ktl_solo` and `max_occ` and emit the same state machine with ribosome,
transcript and protein in the carrier, template and product roles. -/
def multi_tl.update_reactions (self : multi_tl) (transcript protein : Species)
    (component : Component) (part_id : Option String) : List (Rxn Species) :=
  let kbr := component.get_parameter ("kbr") part_id self.name
  let kur := component.get_parameter ("kur") part_id self.name
  let k_iso_r := component.get_parameter ("k_iso_r") part_id self.name
  let ktl_solo := component.get_parameter ("ktl_solo") part_id self.name
  let max_occ := multi_tl.max_occ_resolved self component part_id
  occupancy_reactions self.ribosome transcript protein kbr kur k_iso_r ktl_solo max_occ

/- ## Concrete fixtures for witnesses and counterexamples -/

/-- A concrete DNA species. -/
def sG : Species := .base ("G") ("dna")

/-- A concrete polymerase species. -/
def sPol : Species := .base ("RNAP") ("protein")

/-- A concrete ribosome species. -/
def sRib : Species := .base ("Ribo") ("protein")

/-- A concrete transcript species. -/
def sT : Species := .base ("T") ("rna")

/-- A concrete protein species. -/
def sP : Species := .base ("P") ("protein")

/-- A concrete component whose parameter source resolves `max_occ` to 3 and
every rate constant to a fixed positive value. -/
def comp3 : Component :=
  ⟨"testpart3", fun param _ _ =>
    if param = ("max_occ") then 3
    else if param = ("k1") then 2
    else if param = ("k2") then 3
    else if param = ("k_iso") then 5
    else if param = ("ktx_solo") then 7
    else 11⟩

/-- A concrete component whose parameter source resolves `max_occ` to 2. -/
def comp2 : Component :=
  ⟨"testpart2", fun param _ _ => if param = ("max_occ") then 2 else 13⟩

/-- A concrete component resolving every parameter to 1. -/
def compA : Component := ⟨"part1", fun _ _ _ => 1⟩

/-- A concrete `multi_tx` mechanism instance. -/
def mtx : multi_tx := ⟨sPol, "multi_tx", "transcription"⟩

/-- A concrete `multi_tl` mechanism instance. -/
def mtl : multi_tl := ⟨sRib, "multi_tl", "translation"⟩

/-- A concrete `SimpleTranscription` mechanism instance. -/
def stx_mech : SimpleTranscription := ⟨"simple_transcription", "transcription"⟩

/-- A concrete `OneStepGeneExpression` mechanism instance. -/
def oge_mech : OneStepGeneExpression := ⟨"gene_expression", "transcription"⟩

/- ## Statement shapes for the multi-occupancy claims -/

/-- The uniform state-machine shape claimed for `multi_tx` at a resolved
occupancy bound `max_occ`: species counts, the species and reaction
decompositions, the per-family reaction counts, and the uniform rate
constant carried by each reaction family. -/
def C1Shape (self : multi_tx) (dna transcript : Species) (component : Component)
    (part_id : Option String) (protein : Option Species) (max_occ : ℕ) : Prop :=
  (cp_open_list self.pol dna max_occ).length = max_occ ∧
  (cp_closed_list self.pol dna max_occ).length = max_occ ∧
  multi_tx.update_species self dna transcript component part_id protein =
    cp_open_list self.pol dna max_occ ++ cp_closed_list self.pol dna max_occ ++
      [self.pol, dna, transcript] ∧
  multi_tx.update_reactions self dna transcript component part_id protein =
    occupancy_reactions self.pol dna transcript
      (component.get_parameter ("k1") part_id self.name)
      (component.get_parameter ("k2") part_id self.name)
      (component.get_parameter ("k_iso") part_id self.name)
      (component.get_parameter ("ktx_solo") part_id self.name) max_occ ∧
  (rxn_open_pf self.pol dna (component.get_parameter ("k1") part_id self.name) max_occ).length +
    (rxn_open_pr self.pol dna (component.get_parameter ("k2") part_id self.name) max_occ).length =
      2 * (max_occ - 1) ∧
  (rxn_iso self.pol dna (component.get_parameter ("k_iso") part_id self.name) max_occ).length =
    max_occ ∧
  (rxn_release_open self.pol dna transcript
    (component.get_parameter ("ktx_solo") part_id self.name) max_occ).length = max_occ ∧
  (rxn_release_closed self.pol dna transcript
    (component.get_parameter ("ktx_solo") part_id self.name) max_occ).length = max_occ - 1 ∧
  (∀ r ∈ rxn_open_pf self.pol dna (component.get_parameter ("k1") part_id self.name) max_occ,
    r.k_forward = component.get_parameter ("k1") part_id self.name) ∧
  (∀ r ∈ rxn_open_pr self.pol dna (component.get_parameter ("k2") part_id self.name) max_occ,
    r.k_forward = component.get_parameter ("k2") part_id self.name) ∧
  (∀ r ∈ rxn_iso self.pol dna (component.get_parameter ("k_iso") part_id self.name) max_occ,
    r.k_forward = component.get_parameter ("k_iso") part_id self.name) ∧
  (∀ r ∈ rxn_release_open self.pol dna transcript
      (component.get_parameter ("ktx_solo") part_id self.name) max_occ,
    r.k_forward = component.get_parameter ("ktx_solo") part_id self.name) ∧
  (∀ r ∈ rxn_release_closed self.pol dna transcript
      (component.get_parameter ("ktx_solo") part_id self.name) max_occ,
    r.k_forward = component.get_parameter ("ktx_solo") part_id self.name) ∧
  (rxn_m1 self.pol dna (component.get_parameter ("k1") part_id self.name) max_occ).k_forward =
    component.get_parameter ("k1") part_id self.name ∧
  (rxn_m2 self.pol dna (component.get_parameter ("k2") part_id self.name) max_occ).k_forward =
    component.get_parameter ("k2") part_id self.name

/-- The per-family counts of `multi_tx` when `max_occ` resolves to 3:
3 open and 3 closed complexes, 2 binding, 2 unbinding, 3 isomerization,
3 open-release, 2 closed-release and 2 boundary reactions, 14 in total. -/
def C2Shape (self : multi_tx) (dna transcript : Species) (component : Component)
    (part_id : Option String) (protein : Option Species) : Prop :=
  (cp_open_list self.pol dna 3).length = 3 ∧
  (cp_closed_list self.pol dna 3).length = 3 ∧
  multi_tx.update_species self dna transcript component part_id protein =
    cp_open_list self.pol dna 3 ++ cp_closed_list self.pol dna 3 ++
      [self.pol, dna, transcript] ∧
  (rxn_open_pf self.pol dna (component.get_parameter ("k1") part_id self.name) 3).length = 2 ∧
  (rxn_open_pr self.pol dna (component.get_parameter ("k2") part_id self.name) 3).length = 2 ∧
  (rxn_iso self.pol dna (component.get_parameter ("k_iso") part_id self.name) 3).length = 3 ∧
  (rxn_release_open self.pol dna transcript
    (component.get_parameter ("ktx_solo") part_id self.name) 3).length = 3 ∧
  (rxn_release_closed self.pol dna transcript
    (component.get_parameter ("ktx_solo") part_id self.name) 3).length = 2 ∧
  (multi_tx.update_reactions self dna transcript component part_id protein).length = 14

/-- Shape of the closed-release reaction for naming level `n`: it consumes
only the closed complex carrying `n` carriers and named with closed index
`n`, and produces `n` free carriers, `n` products and the closed complex
named with index 0 (which itself carries one carrier). -/
def C3Shape (carrier template product : Species) (kt : ℚ) (max_occ n : ℕ) : Prop :=
  (rxn_release_closed carrier template product kt max_occ).getD (n - 1) dummyRxn =
    ⟨[.complex ([template] ++ List.replicate n carrier) (closed_complex_name carrier template n)],
     List.replicate n carrier ++ List.replicate n product ++
       [.complex ([template] ++ List.replicate 1 carrier) (closed_complex_name carrier template 0)],
     kt⟩

/-- The closed-indexing anomaly plus the decompositions tying the
`cp_closed` list to both species discovery and reaction construction. -/
def C4Shape (self : multi_tx) (dna transcript : Species) (component : Component)
    (part_id : Option String) (protein : Option Species) : Prop :=
  ((cp_closed_list self.pol dna
      (multi_tx.max_occ_resolved self component part_id)).getD 0 dummySpecies).components =
    [dna, self.pol] ∧
  ((cp_closed_list self.pol dna
      (multi_tx.max_occ_resolved self component part_id)).getD 1 dummySpecies).components =
    [dna, self.pol] ∧
  ((cp_closed_list self.pol dna
      (multi_tx.max_occ_resolved self component part_id)).getD 0 dummySpecies).name ≠
    ((cp_closed_list self.pol dna
      (multi_tx.max_occ_resolved self component part_id)).getD 1 dummySpecies).name ∧
  multi_tx.update_species self dna transcript component part_id protein =
    cp_open_list self.pol dna (multi_tx.max_occ_resolved self component part_id) ++
      cp_closed_list self.pol dna (multi_tx.max_occ_resolved self component part_id) ++
      [self.pol, dna, transcript] ∧
  multi_tx.update_reactions self dna transcript component part_id protein =
    occupancy_reactions self.pol dna transcript
      (component.get_parameter ("k1") part_id self.name)
      (component.get_parameter ("k2") part_id self.name)
      (component.get_parameter ("k_iso") part_id self.name)
      (component.get_parameter ("ktx_solo") part_id self.name)
      (multi_tx.max_occ_resolved self component part_id)

/-- Shape of the open-release reaction for level `n`: it consumes only the
open complex carrying `n` carriers and named with index `n`, and produces
`n` free carriers, `n` products and the bare template. -/
def C5Shape (carrier template product : Species) (kt : ℚ) (max_occ n : ℕ) : Prop :=
  (rxn_release_open carrier template product kt max_occ).getD (n - 1) dummyRxn =
    ⟨[.complex ([template] ++ List.replicate n carrier) (open_complex_name carrier template n)],
     List.replicate n carrier ++ List.replicate n product ++ [template], kt⟩

/- ## Helper lemmas on list indexing -/

lemma map_range'_one_getD {α : Type} (f : ℕ → α) (m n : ℕ) (d : α) (h : n < m) :
    ((List.range' 1 m).map f).getD n d = f (n + 1) := by
  rw [List.getD_eq_getElem?_getD, List.getElem?_map, List.getElem?_range' 1 1 h]
  simp [Nat.add_comm]

lemma map_range_getD {α : Type} (f : ℕ → α) (m n : ℕ) (d : α) (h : n < m) :
    ((List.range m).map f).getD n d = f n := by
  rw [List.getD_eq_getElem?_getD, List.getElem?_map, List.getElem?_range h]
  rfl

lemma getD_mem {α : Type} (l : List α) (n : ℕ) (d : α) (h : n < l.length) :
    l.getD n d ∈ l := by
  rw [List.getD_eq_getElem?_getD, List.getElem?_eq_getElem h]
  exact List.getElem_mem h

lemma append_right_ne (s : String) {a b : String} (h : a ≠ b) : s ++ a ≠ s ++ b := by
  intro he
  apply h
  have hd := congrArg String.data he
  have h0 : (s ++ a).data = s.data ++ a.data := rfl
  have h1 : (s ++ b).data = s.data ++ b.data := rfl
  rw [h0, h1] at hd
  exact congrArg String.mk (List.append_cancel_left hd)

/- ## Resolved forms of the indexed complex lists -/

lemma cp_open_list_length (carrier template : Species) (max_occ : ℕ) :
    (cp_open_list carrier template max_occ).length = max_occ := by
  simp [cp_open_list]

lemma cp_closed_list_length (carrier template : Species) (max_occ : ℕ) :
    (cp_closed_list carrier template max_occ).length = max_occ := by
  simp [cp_closed_list]

/-- `cp_open[n]` is the complex with `n + 1` carriers named with index
`n + 1`: for the open list, position, naming index and carrier count agree
(the complex at position `n` models occupancy level `n + 1`). -/
lemma cp_open_list_getD (carrier template : Species) {max_occ n : ℕ}
    (h : n < max_occ) :
    (cp_open_list carrier template max_occ).getD n dummySpecies =
      .complex ([template] ++ List.replicate (n + 1) carrier)
        (open_complex_name carrier template (n + 1)) := by
  unfold cp_open_list
  rw [map_range'_one_getD _ _ _ _ h]

/-- `cp_closed[0]` is the complex with one carrier named with closed
index `0`. -/
lemma cp_closed_list_getD_zero (carrier template : Species) {max_occ : ℕ}
    (h : 0 < max_occ) :
    (cp_closed_list carrier template max_occ).getD 0 dummySpecies =
      .complex ([template] ++ List.replicate 1 carrier)
        (closed_complex_name carrier template 0) := by
  unfold cp_closed_list
  rw [map_range'_one_getD _ _ _ _ h]
  norm_num

/-- For `n ≥ 1`, `cp_closed[n]` is the complex with `n` carriers named with
closed index `n`. -/
lemma cp_closed_list_getD (carrier template : Species) {max_occ n : ℕ}
    (h1 : 1 ≤ n) (h2 : n < max_occ) :
    (cp_closed_list carrier template max_occ).getD n dummySpecies =
      .complex ([template] ++ List.replicate n carrier)
        (closed_complex_name carrier template n) := by
  unfold cp_closed_list
  rw [map_range'_one_getD _ _ _ _ h2]
  rw [if_pos (by omega)]
  simp

/- ## Resolved forms of the release reactions -/

lemma rxn_release_closed_length (carrier template product : Species) (kt : ℚ)
    (max_occ : ℕ) :
    (rxn_release_closed carrier template product kt max_occ).length = max_occ - 1 := by
  simp [rxn_release_closed]

lemma rxn_release_open_length (carrier template product : Species) (kt : ℚ)
    (max_occ : ℕ) :
    (rxn_release_open carrier template product kt max_occ).length = max_occ := by
  simp [rxn_release_open]

lemma C3Shape_holds (carrier template product : Species) (kt : ℚ)
    {max_occ n : ℕ} (h1 : 1 ≤ n) (h2 : n < max_occ) :
    C3Shape carrier template product kt max_occ n := by
  unfold C3Shape rxn_release_closed
  rw [map_range'_one_getD _ _ _ _ (show n - 1 < max_occ - 1 by omega)]
  rw [show n - 1 + 1 = n by omega]
  rw [cp_closed_list_getD carrier template h1 h2,
    cp_closed_list_getD_zero carrier template (by omega)]

lemma C5Shape_holds (carrier template product : Species) (kt : ℚ)
    {max_occ n : ℕ} (h1 : 1 ≤ n) (h2 : n ≤ max_occ) :
    C5Shape carrier template product kt max_occ n := by
  unfold C5Shape rxn_release_open
  rw [map_range_getD _ _ _ _ (show n - 1 < max_occ by omega)]
  rw [cp_open_list_getD carrier template (show n - 1 < max_occ by omega)]
  rw [show n - 1 + 1 = n by omega]

lemma mem_occupancy_of_mem_release_closed {carrier template product : Species}
    {k1 k2 k_iso kt : ℚ} {max_occ : ℕ} {r : Rxn Species}
    (h : r ∈ rxn_release_closed carrier template product kt max_occ) :
    r ∈ occupancy_reactions carrier template product k1 k2 k_iso kt max_occ := by
  unfold occupancy_reactions
  simp only [List.mem_append]
  tauto

lemma mem_occupancy_of_mem_release_open {carrier template product : Species}
    {k1 k2 k_iso kt : ℚ} {max_occ : ℕ} {r : Rxn Species}
    (h : r ∈ rxn_release_open carrier template product kt max_occ) :
    r ∈ occupancy_reactions carrier template product k1 k2 k_iso kt max_occ := by
  unfold occupancy_reactions
  simp only [List.mem_append]
  tauto

/- ## C1 -/

/-- Claim C1: for every resolved `max_occ ≥ 2`, `multi_tx` species discovery
returns exactly `max_occ` open complexes and `max_occ` closed complexes
(followed by polymerase, dna and transcript), and reaction construction
returns `max_occ - 1` binding plus `max_occ - 1` unbinding reactions
(`2 * (max_occ - 1)` together), `max_occ` isomerization reactions,
`max_occ` open-release reactions, `max_occ - 1` closed-release reactions
and the 2 boundary reactions, with every binding/boundary-binding reaction
at `k1`, every unbinding/boundary-unbinding reaction at `k2`, every
isomerization at `k_iso` and every release at `ktx_solo`, independent of
the occupancy level. -/
theorem C1_multi_tx_uniform_state_machine (self : multi_tx)
    (dna transcript : Species) (component : Component) (part_id : Option String)
    (protein : Option Species) (max_occ : ℕ)
    (hres : multi_tx.max_occ_resolved self component part_id = max_occ)
    (h2 : 2 ≤ max_occ) :
    C1Shape self dna transcript component part_id protein max_occ := by
  subst hres
  unfold C1Shape
  refine ⟨cp_open_list_length _ _ _, cp_closed_list_length _ _ _, rfl, rfl,
    ?_, ?_, ?_, ?_, ?_, ?_, ?_, ?_, ?_, rfl, rfl⟩
  · simp only [rxn_open_pf, rxn_open_pr, List.length_map, List.length_range]
    omega
  · simp [rxn_iso]
  · exact rxn_release_open_length _ _ _ _ _
  · exact rxn_release_closed_length _ _ _ _ _
  · intro r hr
    simp only [rxn_open_pf, List.mem_map] at hr
    obtain ⟨n, hn, rfl⟩ := hr
    rfl
  · intro r hr
    simp only [rxn_open_pr, List.mem_map] at hr
    obtain ⟨n, hn, rfl⟩ := hr
    rfl
  · intro r hr
    simp only [rxn_iso, List.mem_map] at hr
    obtain ⟨n, hn, rfl⟩ := hr
    rfl
  · intro r hr
    simp only [rxn_release_open, List.mem_map] at hr
    obtain ⟨n, hn, rfl⟩ := hr
    rfl
  · intro r hr
    simp only [rxn_release_closed, List.mem_map] at hr
    obtain ⟨n, hn, rfl⟩ := hr
    rfl

/-- Witness for C1 at a concrete mechanism, species and component with
`max_occ` resolving to 3. -/
theorem C1_witness :
    multi_tx.max_occ_resolved mtx comp3 none = 3 ∧ 2 ≤ 3 ∧
    C1Shape mtx sG sT comp3 none none 3 :=
  ⟨rfl, by norm_num,
    C1_multi_tx_uniform_state_machine mtx sG sT comp3 none none 3 rfl (by norm_num)⟩

/- ## C2 -/

/-- Claim C2 counterexample: at a concrete instance whose `max_occ` resolves
to 3, `multi_tx` reaction construction returns 14 reactions, not the 21
the claim states, and the binding-reaction family has 2 members, not 4. -/
theorem C2_counterexample :
    (multi_tx.update_reactions mtx sG sT comp3 none none).length = 14 ∧
    (multi_tx.update_reactions mtx sG sT comp3 none none).length ≠ 21 ∧
    (rxn_open_pf sPol sG (comp3.get_parameter ("k1") none ("multi_tx")) 3).length = 2 ∧
    (rxn_open_pf sPol sG (comp3.get_parameter ("k1") none ("multi_tx")) 3).length ≠ 4 := by
  have h : (multi_tx.update_reactions mtx sG sT comp3 none none).length = 14 := rfl
  have h2 : (rxn_open_pf sPol sG (comp3.get_parameter ("k1") none ("multi_tx")) 3).length = 2 := rfl
  exact ⟨h, by rw [h]; norm_num, h2, by rw [h2]; norm_num⟩

/-- Claim C2 as amended: for `multi_tx` with `max_occ` resolving to 3, species
discovery returns exactly 3 open and 3 closed complexes, and reaction
construction emits 2 binding, 2 unbinding, 3 isomerization, 3
open-release and 2 closed-release reactions plus the 2 boundary
reactions, for a total of exactly 14 reactions. -/
theorem C2_multi_tx_max_occ_three (self : multi_tx) (dna transcript : Species)
    (component : Component) (part_id : Option String) (protein : Option Species)
    (hres : multi_tx.max_occ_resolved self component part_id = 3) :
    C2Shape self dna transcript component part_id protein := by
  unfold C2Shape
  refine ⟨?_, ?_, ?_, ?_, ?_, ?_, ?_, ?_, ?_⟩
  · simp [cp_open_list]
  · simp [cp_closed_list]
  · unfold multi_tx.update_species
    rw [hres]
  · simp [rxn_open_pf]
  · simp [rxn_open_pr]
  · simp [rxn_iso]
  · simp [rxn_release_open]
  · simp [rxn_release_closed]
  · unfold multi_tx.update_reactions
    rw [hres]
    simp [occupancy_reactions, rxn_open_pf, rxn_open_pr, rxn_iso,
      rxn_release_open, rxn_release_closed]

/-- Witness for the amended C2 at a concrete instance. -/
theorem C2_witness :
    multi_tx.max_occ_resolved mtx comp3 none = 3 ∧
    C2Shape mtx sG sT comp3 none none :=
  ⟨rfl, C2_multi_tx_max_occ_three mtx sG sT comp3 none none rfl⟩

/- ## C3 -/

/-- Claim C3 counterexample: at a concrete `multi_tx` instance whose `max_occ`
resolves to 2, the closed-release reaction for level `n = 1` consumes the
closed complex named with index 1, but its outputs are one free carrier,
one product and the index-0 closed complex - not the `n - 1 = 0` carriers
and products the claim states (its outputs are not just the index-0
closed complex). -/
theorem C3_counterexample :
    (rxn_release_closed sPol sG sT (comp2.get_parameter ("ktx_solo") none ("multi_tx")) 2).getD
        0 dummyRxn ∈ multi_tx.update_reactions mtx sG sT comp2 none none ∧
    ((rxn_release_closed sPol sG sT (comp2.get_parameter ("ktx_solo") none ("multi_tx")) 2).getD
        0 dummyRxn).inputs = [.complex [sG, sPol] (closed_complex_name sPol sG 1)] ∧
    ((rxn_release_closed sPol sG sT (comp2.get_parameter ("ktx_solo") none ("multi_tx")) 2).getD
        0 dummyRxn).outputs =
      [sPol, sT, .complex [sG, sPol] (closed_complex_name sPol sG 0)] ∧
    ((rxn_release_closed sPol sG sT (comp2.get_parameter ("ktx_solo") none ("multi_tx")) 2).getD
        0 dummyRxn).outputs ≠
      [.complex [sG, sPol] (closed_complex_name sPol sG 0)] := by
  refine ⟨?_, rfl, rfl, ?_⟩
  · show _ ∈ occupancy_reactions sPol sG sT
      (comp2.get_parameter ("k1") none ("multi_tx"))
      (comp2.get_parameter ("k2") none ("multi_tx"))
      (comp2.get_parameter ("k_iso") none ("multi_tx"))
      (comp2.get_parameter ("ktx_solo") none ("multi_tx")) 2
    exact mem_occupancy_of_mem_release_closed
      (getD_mem _ 0 dummyRxn (by rw [rxn_release_closed_length]; norm_num))
  · intro h
    exact absurd (congrArg List.length h) (by decide)

/-- Claim C3 as amended: in `multi_tx` (and structurally in `multi_tl`), the
closed-release reaction for naming level `n` (with `1 ≤ n < max_occ`)
consumes only the closed complex carrying `n` carriers named with index
`n`, and outputs exactly `n` free carriers, `n` products and the index-0
closed complex (which itself still carries one carrier), and nothing
else; that reaction is among the reactions returned by reaction
construction. -/
theorem C3_closed_release_shape (self : multi_tx) (dna transcript : Species)
    (component : Component) (part_id : Option String) (protein : Option Species)
    (tl : multi_tl) (ttranscript tprotein : Species) (tcomponent : Component)
    (tpart_id : Option String) (n m : ℕ)
    (h1 : 1 ≤ n) (h2 : n < multi_tx.max_occ_resolved self component part_id)
    (h3 : 1 ≤ m) (h4 : m < multi_tl.max_occ_resolved tl tcomponent tpart_id) :
    (C3Shape self.pol dna transcript
      (component.get_parameter ("ktx_solo") part_id self.name)
      (multi_tx.max_occ_resolved self component part_id) n ∧
     (rxn_release_closed self.pol dna transcript
        (component.get_parameter ("ktx_solo") part_id self.name)
        (multi_tx.max_occ_resolved self component part_id)).getD (n - 1) dummyRxn ∈
      multi_tx.update_reactions self dna transcript component part_id protein) ∧
    (C3Shape tl.ribosome ttranscript tprotein
      (tcomponent.get_parameter ("ktl_solo") tpart_id tl.name)
      (multi_tl.max_occ_resolved tl tcomponent tpart_id) m ∧
     (rxn_release_closed tl.ribosome ttranscript tprotein
        (tcomponent.get_parameter ("ktl_solo") tpart_id tl.name)
        (multi_tl.max_occ_resolved tl tcomponent tpart_id)).getD (m - 1) dummyRxn ∈
      multi_tl.update_reactions tl ttranscript tprotein tcomponent tpart_id) := by
  refine ⟨⟨C3Shape_holds _ _ _ _ h1 h2, ?_⟩, ⟨C3Shape_holds _ _ _ _ h3 h4, ?_⟩⟩
  · exact mem_occupancy_of_mem_release_closed
      (getD_mem _ (n - 1) dummyRxn (by rw [rxn_release_closed_length]; omega))
  · exact mem_occupancy_of_mem_release_closed
      (getD_mem _ (m - 1) dummyRxn (by rw [rxn_release_closed_length]; omega))

/-- Witness for the amended C3 at level 1 of concrete `multi_tx` and
`multi_tl` instances with `max_occ` resolving to 2. -/
theorem C3_witness :
    1 ≤ 1 ∧ 1 < multi_tx.max_occ_resolved mtx comp2 none ∧
    1 < multi_tl.max_occ_resolved mtl comp2 none ∧
    ((C3Shape mtx.pol sG sT (comp2.get_parameter ("ktx_solo") none mtx.name)
        (multi_tx.max_occ_resolved mtx comp2 none) 1 ∧
      (rxn_release_closed mtx.pol sG sT
        (comp2.get_parameter ("ktx_solo") none mtx.name)
        (multi_tx.max_occ_resolved mtx comp2 none)).getD 0 dummyRxn ∈
        multi_tx.update_reactions mtx sG sT comp2 none none) ∧
     (C3Shape mtl.ribosome sT sP (comp2.get_parameter ("ktl_solo") none mtl.name)
        (multi_tl.max_occ_resolved mtl comp2 none) 1 ∧
      (rxn_release_closed mtl.ribosome sT sP
        (comp2.get_parameter ("ktl_solo") none mtl.name)
        (multi_tl.max_occ_resolved mtl comp2 none)).getD 0 dummyRxn ∈
        multi_tl.update_reactions mtl sT sP comp2 none)) :=
  ⟨le_rfl, by decide, by decide,
    C3_closed_release_shape mtx sG sT comp2 none none mtl sT sP comp2 none 1 1
      le_rfl (by decide) le_rfl (by decide)⟩

/- ## C4 -/

/-- Claim C4: for every resolved `max_occ ≥ 2`, the closed-complex list built by
`multi_tx` (shared by species discovery and reaction construction)
contains at consecutive indices 0 and 1 two complexes with identical
component lists (the template plus exactly one carrier) but distinct
names (closed index 0 versus closed index 1). -/
theorem C4_closed_indexing_anomaly (self : multi_tx) (dna transcript : Species)
    (component : Component) (part_id : Option String) (protein : Option Species)
    (h2 : 2 ≤ multi_tx.max_occ_resolved self component part_id) :
    C4Shape self dna transcript component part_id protein := by
  unfold C4Shape
  have e0 := cp_closed_list_getD_zero self.pol dna
    (show 0 < multi_tx.max_occ_resolved self component part_id by omega)
  have e1 := cp_closed_list_getD self.pol dna (le_refl 1)
    (show 1 < multi_tx.max_occ_resolved self component part_id by omega)
  refine ⟨?_, ?_, ?_, rfl, rfl⟩
  · rw [e0]; rfl
  · rw [e1]; rfl
  · rw [e0, e1]
    show closed_complex_name self.pol dna 0 ≠ closed_complex_name self.pol dna 1
    unfold closed_complex_name
    exact append_right_ne _ (by decide)

/-- Witness for C4 at a concrete instance with `max_occ` resolving to 3. -/
theorem C4_witness :
    2 ≤ multi_tx.max_occ_resolved mtx comp3 none ∧
    C4Shape mtx sG sT comp3 none none :=
  ⟨by decide, C4_closed_indexing_anomaly mtx sG sT comp3 none none (by decide)⟩

/- ## C5 -/

/-- Claim C5: in `multi_tx` (and structurally in `multi_tl`), the open-release
reaction for occupancy level `n` (with `1 ≤ n ≤ max_occ`) consumes only
the open complex carrying `n` carriers named with index `n`, and outputs
exactly `n` free carriers, `n` products and the bare template, and
nothing else; that reaction is among the reactions returned by reaction
construction. -/
theorem C5_open_release_shape (self : multi_tx) (dna transcript : Species)
    (component : Component) (part_id : Option String) (protein : Option Species)
    (tl : multi_tl) (ttranscript tprotein : Species) (tcomponent : Component)
    (tpart_id : Option String) (n m : ℕ)
    (h1 : 1 ≤ n) (h2 : n ≤ multi_tx.max_occ_resolved self component part_id)
    (h3 : 1 ≤ m) (h4 : m ≤ multi_tl.max_occ_resolved tl tcomponent tpart_id) :
    (C5Shape self.pol dna transcript
      (component.get_parameter ("ktx_solo") part_id self.name)
      (multi_tx.max_occ_resolved self component part_id) n ∧
     (rxn_release_open self.pol dna transcript
        (component.get_parameter ("ktx_solo") part_id self.name)
        (multi_tx.max_occ_resolved self component part_id)).getD (n - 1) dummyRxn ∈
      multi_tx.update_reactions self dna transcript component part_id protein) ∧
    (C5Shape tl.ribosome ttranscript tprotein
      (tcomponent.get_parameter ("ktl_solo") tpart_id tl.name)
      (multi_tl.max_occ_resolved tl tcomponent tpart_id) m ∧
     (rxn_release_open tl.ribosome ttranscript tprotein
        (tcomponent.get_parameter ("ktl_solo") tpart_id tl.name)
        (multi_tl.max_occ_resolved tl tcomponent tpart_id)).getD (m - 1) dummyRxn ∈
      multi_tl.update_reactions tl ttranscript tprotein tcomponent tpart_id) := by
  refine ⟨⟨C5Shape_holds _ _ _ _ h1 h2, ?_⟩, ⟨C5Shape_holds _ _ _ _ h3 h4, ?_⟩⟩
  · exact mem_occupancy_of_mem_release_open
      (getD_mem _ (n - 1) dummyRxn (by rw [rxn_release_open_length]; omega))
  · exact mem_occupancy_of_mem_release_open
      (getD_mem _ (m - 1) dummyRxn (by rw [rxn_release_open_length]; omega))

/-- Witness for C5 at level 2 of concrete `multi_tx` and `multi_tl`
instances with `max_occ` resolving to 2. -/
theorem C5_witness :
    1 ≤ 2 ∧ 2 ≤ multi_tx.max_occ_resolved mtx comp2 none ∧
    2 ≤ multi_tl.max_occ_resolved mtl comp2 none ∧
    ((C5Shape mtx.pol sG sT (comp2.get_parameter ("ktx_solo") none mtx.name)
        (multi_tx.max_occ_resolved mtx comp2 none) 2 ∧
      (rxn_release_open mtx.pol sG sT
        (comp2.get_parameter ("ktx_solo") none mtx.name)
        (multi_tx.max_occ_resolved mtx comp2 none)).getD 1 dummyRxn ∈
        multi_tx.update_reactions mtx sG sT comp2 none none) ∧
     (C5Shape mtl.ribosome sT sP (comp2.get_parameter ("ktl_solo") none mtl.name)
        (multi_tl.max_occ_resolved mtl comp2 none) 2 ∧
      (rxn_release_open mtl.ribosome sT sP
        (comp2.get_parameter ("ktl_solo") none mtl.name)
        (multi_tl.max_occ_resolved mtl comp2 none)).getD 1 dummyRxn ∈
        multi_tl.update_reactions mtl sT sP comp2 none)) :=
  ⟨by norm_num, by decide, by decide,
    C5_open_release_shape mtx sG sT comp2 none none mtl sT sP comp2 none 2 2
      (by norm_num) (by decide) (by norm_num) (by decide)⟩

/- ## C6 -/

/-- Claim C6 counterexample: for `SimpleTranscription` with both a transcript and
a protein supplied, the protein is returned by species discovery but
appears in no reaction returned by reaction construction with the same
inputs, refuting the universal species-reaction consistency claim. -/
theorem C6_counterexample :
    sP ∈ SimpleTranscription.update_species sG (some sT) (some sP) ∧
    stx_mech.update_reactions sG (some compA) none none (some sT) (some sP) =
      .ok [⟨[some sG], [some sG, some sT],
        compA.get_parameter ("ktx") none stx_mech.name⟩] ∧
    ∀ r ∈ [(⟨[some sG], [some sG, some sT],
        compA.get_parameter ("ktx") none stx_mech.name⟩ : Rxn (Option Species))],
      ¬ (some sP ∈ r.inputs) ∧ ¬ (some sP ∈ r.outputs) := by
  refine ⟨by simp [SimpleTranscription.update_species], rfl, ?_⟩
  intro r hr
  rw [List.mem_singleton] at hr
  subst hr
  constructor
  · intro h
    rw [List.mem_singleton] at h
    exact absurd (congrArg Species.name (Option.some.inj h)) (by decide)
  · intro h
    rcases List.mem_cons.mp h with h1 | h1
    · exact absurd (congrArg Species.name (Option.some.inj h1)) (by decide)
    · rw [List.mem_singleton] at h1
      exact absurd (congrArg Species.name (Option.some.inj h1)) (by decide)

/-- Claim C6 as amended: species discovery is deterministic (idempotent by
purity of the embedding), and species-reaction consistency holds for
`OneStepGeneExpression` whenever a protein is supplied and for
`SimpleTranscription` whenever transcript and protein are not both
supplied - the configurations the counterexample excludes being exactly
those that leave a supplied species unused. -/
theorem C6_species_reaction_consistency (dna p : Species)
    (transcript protein : Option Species) (oge : OneStepGeneExpression)
    (stx : SimpleTranscription) (c : Component) (part_id : Option String)
    (hc : transcript = none ∨ protein = none) :
    OneStepGeneExpression.update_species dna protein transcript =
      OneStepGeneExpression.update_species dna protein transcript ∧
    SimpleTranscription.update_species dna transcript protein =
      SimpleTranscription.update_species dna transcript protein ∧
    (∃ l, oge.update_reactions dna (some c) none (some p) transcript part_id = .ok l ∧
      ∀ s ∈ OneStepGeneExpression.update_species dna (some p) transcript,
        ∃ r ∈ l, s ∈ r.inputs ∨ s ∈ r.outputs) ∧
    (∃ l, stx.update_reactions dna (some c) none part_id transcript protein = .ok l ∧
      ∀ s ∈ SimpleTranscription.update_species dna transcript protein,
        ∃ r ∈ l, some s ∈ r.inputs ∨ some s ∈ r.outputs) := by
  refine ⟨rfl, rfl, ?_, ?_⟩
  · refine ⟨[⟨[dna], [dna, p], c.get_parameter ("kexpress") part_id oge.name⟩], rfl, ?_⟩
    intro s hs
    simp only [OneStepGeneExpression.update_species, Option.toList_some,
      List.mem_append, List.mem_singleton] at hs
    rcases hs with rfl | rfl
    · exact ⟨_, List.mem_singleton.mpr rfl, Or.inl (List.mem_singleton.mpr rfl)⟩
    · exact ⟨_, List.mem_singleton.mpr rfl, Or.inr (by simp)⟩
  · cases transcript with
    | some t =>
      rcases hc with h | rfl
      · exact absurd h (by simp)
      · refine ⟨[⟨[some dna], [some dna, some t],
          stx.ktx_resolved c none part_id⟩], rfl, ?_⟩
        intro s hs
        simp only [SimpleTranscription.update_species, Option.toList_some,
          Option.toList_none, List.append_nil, List.mem_append, List.mem_singleton] at hs
        rcases hs with rfl | rfl
        · exact ⟨_, List.mem_singleton.mpr rfl, Or.inl (List.mem_singleton.mpr rfl)⟩
        · exact ⟨_, List.mem_singleton.mpr rfl, Or.inr (by simp)⟩
    | none =>
      cases protein with
      | none =>
        refine ⟨[⟨[some dna], [some dna, none], stx.ktx_resolved c none part_id⟩], rfl, ?_⟩
        intro s hs
        simp only [SimpleTranscription.update_species, Option.toList_none,
          List.append_nil, List.mem_singleton] at hs
        subst hs
        exact ⟨_, List.mem_singleton.mpr rfl, Or.inl (List.mem_singleton.mpr rfl)⟩
      | some q =>
        refine ⟨[⟨[some dna], [some dna, some q],
          stx.ktx_resolved c none part_id * c.get_parameter ("ktl") part_id stx.name⟩],
          rfl, ?_⟩
        intro s hs
        simp only [SimpleTranscription.update_species, Option.toList_some,
          Option.toList_none, List.append_nil, List.nil_append,
          List.mem_append, List.mem_singleton] at hs
        rcases hs with rfl | rfl
        · exact ⟨_, List.mem_singleton.mpr rfl, Or.inl (List.mem_singleton.mpr rfl)⟩
        · exact ⟨_, List.mem_singleton.mpr rfl, Or.inr (by simp)⟩

/-- Witness for the amended C6 at concrete inputs (transcript supplied,
protein absent). -/
theorem C6_witness :
    ((some sT : Option Species) = none ∨ (none : Option Species) = none) ∧
    (OneStepGeneExpression.update_species sG none (some sT) =
      OneStepGeneExpression.update_species sG none (some sT) ∧
    SimpleTranscription.update_species sG (some sT) none =
      SimpleTranscription.update_species sG (some sT) none ∧
    (∃ l, oge_mech.update_reactions sG (some compA) none (some sP) (some sT) none = .ok l ∧
      ∀ s ∈ OneStepGeneExpression.update_species sG (some sP) (some sT),
        ∃ r ∈ l, s ∈ r.inputs ∨ s ∈ r.outputs) ∧
    (∃ l, stx_mech.update_reactions sG (some compA) none none (some sT) none = .ok l ∧
      ∀ s ∈ SimpleTranscription.update_species sG (some sT) none,
        ∃ r ∈ l, some s ∈ r.inputs ∨ some s ∈ r.outputs)) :=
  ⟨Or.inr rfl,
    C6_species_reaction_consistency sG sP (some sT) none oge_mech stx_mech compA none
      (Or.inr rfl)⟩

/- ## C7 -/

/-- Claim C7: `SimpleTranscription` reaction construction in the expression-only
configuration (transcript absent, protein supplied) returns exactly one
mass-action reaction `dna -> dna + protein` whose forward rate is the
product of the resolved `ktx` and `ktl`; in every other configuration it
returns exactly one reaction `dna -> dna + transcript` at the resolved
`ktx` (also when `ktx` was supplied directly with no component). -/
theorem C7_simple_transcription_reactions (self : SimpleTranscription)
    (dna : Species) (c : Component) (ktx : Option ℚ) (part_id : Option String)
    (transcript protein : Option Species) :
    (∀ p, transcript = none → protein = some p →
      self.update_reactions dna (some c) ktx part_id transcript protein =
        .ok [⟨[some dna], [some dna, some p],
          self.ktx_resolved c ktx part_id *
            c.get_parameter ("ktl") part_id self.name⟩]) ∧
    (transcript ≠ none ∨ protein = none →
      self.update_reactions dna (some c) ktx part_id transcript protein =
        .ok [⟨[some dna], [some dna, transcript], self.ktx_resolved c ktx part_id⟩]) ∧
    (∀ v, transcript ≠ none ∨ protein = none →
      self.update_reactions dna none (some v) part_id transcript protein =
        .ok [⟨[some dna], [some dna, transcript], v⟩]) := by
  refine ⟨?_, ?_, ?_⟩
  · rintro p rfl rfl
    cases ktx <;> rfl
  · intro h
    cases transcript with
    | some t => cases ktx <;> rfl
    | none =>
      rcases h with h | rfl
      · exact absurd rfl h
      · cases ktx <;> rfl
  · intro v h
    cases transcript with
    | some t => rfl
    | none =>
      rcases h with h | rfl
      · exact absurd rfl h
      · rfl

/-- Witness for C7: expression-only, ordinary and direct-rate
configurations at concrete inputs. -/
theorem C7_witness :
    (stx_mech.update_reactions sG (some compA) none none none (some sP) =
      .ok [⟨[some sG], [some sG, some sP],
        stx_mech.ktx_resolved compA none none *
          compA.get_parameter ("ktl") none stx_mech.name⟩]) ∧
    (stx_mech.update_reactions sG (some compA) none none (some sT) none =
      .ok [⟨[some sG], [some sG, some sT], stx_mech.ktx_resolved compA none none⟩]) ∧
    (stx_mech.update_reactions sG none (some 5) none (some sT) none =
      .ok [⟨[some sG], [some sG, some sT], 5⟩]) :=
  ⟨(C7_simple_transcription_reactions stx_mech sG compA none none none (some sP)).1
      sP rfl rfl,
   (C7_simple_transcription_reactions stx_mech sG compA none none (some sT) none).2.1
      (Or.inr rfl),
   (C7_simple_transcription_reactions stx_mech sG compA none none (some sT) none).2.2
      5 (Or.inr rfl)⟩

/- ## C8 -/

/-- Claim C8: each carrier-holding mechanism constructor accepts a Species and
stores it unchanged in the produced instance, and rejects any non-Species
carrier with a `ValueError` so that no instance is produced. -/
theorem C8_carrier_species_check (s : Species) (d : String) (nm mt : String) :
    Transcription_MM.mk_checked (.species s) nm = .ok ⟨s, nm⟩ ∧
    Transcription_MM.mk_checked (.notSpecies d) nm =
      .error ("rnap parameter must be a Species.") ∧
    Translation_MM.mk_checked (.species s) nm = .ok ⟨s, nm⟩ ∧
    Translation_MM.mk_checked (.notSpecies d) nm =
      .error ("ribosome must be a Species!") ∧
    Degredation_mRNA_MM.mk_checked (.species s) nm = .ok ⟨s, nm⟩ ∧
    Degredation_mRNA_MM.mk_checked (.notSpecies d) nm =
      .error ("nuclease must be a Species.") ∧
    multi_tx.mk_checked (.species s) nm mt = .ok ⟨s, nm, mt⟩ ∧
    multi_tx.mk_checked (.notSpecies d) nm mt = .error ("pol must be a Species") ∧
    multi_tl.mk_checked (.species s) nm mt = .ok ⟨s, nm, mt⟩ ∧
    multi_tl.mk_checked (.notSpecies d) nm mt =
      .error ("ribosome must be a Species.") :=
  ⟨rfl, rfl, rfl, rfl, rfl, rfl, rfl, rfl, rfl, rfl⟩

/- ## C9 -/

/-- Claim C9: in the expression-only configuration with a direct `ktx` value and
no component, `SimpleTranscription` reaction construction still tries to
resolve `ktl` through the (absent) component and fails with an error
instead of returning the compound-rate reaction. -/
theorem C9_expression_only_direct_ktx_error (self : SimpleTranscription)
    (dna : Species) (v : ℚ) (part_id : Option String) (p : Species) :
    self.update_reactions dna none (some v) part_id none (some p) =
      .error ("AttributeError: NoneType object has no attribute get_parameter") :=
  rfl

/- ## C10 -/

/-- Claim C10: in the reaction construction of `Transcription_MM`,
`Translation_MM` and `Degredation_mRNA_MM`, a missing `part_id` with a
supplied component is replaced by the component name for every parameter
resolution of the call: the call equals the call with
`part_id = component.name`, and the emitted reactions carry the binding,
unbinding and catalytic constants resolved under that substituted
identifier. -/
theorem C10_part_id_defaults_to_component_name
    (txm : Transcription_MM) (dna : Species) (c1 : Component)
    (cx1 : Option Species) (transcript protein : Option Species)
    (tlm : Translation_MM) (ttr tpr : Option Species) (c2 : Component)
    (cx2 : Option Species)
    (dgm : Degredation_mRNA_MM) (rna : Species) (c3 : Component)
    (cx3 : Option Species) :
    txm.update_reactions dna (some c1) none cx1 transcript protein =
      txm.update_reactions dna (some c1) (some c1.name) cx1 transcript protein ∧
    txm.update_reactions dna (some c1) none cx1 transcript protein =
      .ok (MichaelisMentenCopy_update_reactions txm.rnap dna
        (tx_output_of transcript protein) cx1
        (c1.get_parameter ("kb") (some c1.name) txm.name)
        (c1.get_parameter ("ku") (some c1.name) txm.name)
        (c1.get_parameter ("ktx") (some c1.name) txm.name)) ∧
    tlm.update_reactions ttr tpr (some c2) none cx2 =
      tlm.update_reactions ttr tpr (some c2) (some c2.name) cx2 ∧
    dgm.update_reactions rna (some c3) none cx3 =
      dgm.update_reactions rna (some c3) (some c3.name) cx3 ∧
    dgm.update_reactions rna (some c3) none cx3 =
      .ok (MichaelisMenten_update_reactions dgm.nuclease rna none cx3
        (c3.get_parameter ("kb") (some c3.name) dgm.name)
        (c3.get_parameter ("ku") (some c3.name) dgm.name)
        (c3.get_parameter ("kdeg") (some c3.name) dgm.name)) :=
  ⟨rfl, rfl, rfl, rfl, rfl⟩

end BioCRN
